import Mathlib

/-!
Shallow embedding of `sanhok::net::ConnectionUDP`
(src/sanhok/net/connection_udp.hpp).

The connection object is modelled as an explicit state record `ConnState`;
each public method of the class becomes a pure transition function on that
record.  The external asynchronous socket substrate is represented by
explicit outcome parameters (`connect_ok`, `send_ok`, `ReceiveResult`):
each transition function follows the corresponding C++ member function
line by line for every possible outcome of the underlying socket call.
Machine side effects that the claims talk about (log messages, socket
option writes, teardown steps) are recorded in the state so that the
claims' frame conditions can be stated exactly.
-/

namespace SanhokNet

/-- A byte, kept abstract as a natural number (values 0..255 in the code). -/
abbrev Byte := Nat

/-- A datagram / byte buffer (`std::vector<uint8_t>`). -/
abbrev Buffer := List Byte

/-- A UDP endpoint: address and port (`udp::endpoint`). -/
structure Endpoint where
  addr : Nat
  port : Nat
deriving DecidableEq, Repr

/-- Severity of a log message emitted through spdlog. -/
inductive LogLevel
  | info
  | error
deriving DecidableEq, Repr

/-- Which log statement of connection_udp.hpp fired. -/
inductive LogTag
  | boundMsg          -- constructor, line 47
  | connectErrorMsg   -- connect, line 60
  | connectedMsg      -- connect, line 62
  | closeMsg          -- close, line 89
  | closeSocketErrorMsg -- close, line 96
  | sendErrorMsg      -- send_packet, line 110
  | receiveErrorMsg   -- receive_packet, line 141
  | multicastJoinErrorMsg  -- join_multicast_group, line 123
  | multicastLeaveErrorMsg -- leave_multicast_group, line 130
deriving DecidableEq, Repr

/-- One emitted log entry. -/
structure LogEntry where
  level : LogLevel
  tag : LogTag
deriving DecidableEq, Repr

/-- A socket option written by `set_option`. -/
inductive SockOpt
  | reuseAddress
  | joinGroup
  | leaveGroup
deriving DecidableEq, Repr

/-- Error raised by the underlying boost socket. -/
inductive SocketError
  | notConnected   -- getpeername on an unconnected socket (ENOTCONN)
deriving DecidableEq, Repr

/-- The observable state of one `ConnectionUDP` object together with the
counters needed to state the claims' frame conditions.  Fields mirror the
data members of the class (lines 29-39) plus instrumentation:

* `is_open` — the `std::atomic<bool> is_open_` flag;
* `receive_buffer_size` — `receive_buffer_size_`;
* `queue` — the `ConcurrentQueue<std::vector<uint8_t>> receive_queue_`
  contents, in FIFO order (front = oldest);
* `peer` — the socket's connected remote peer, `none` before any
  successful `connect` (the boost socket itself is not in the repository;
  this field models its connected-peer state);
* `socket_released` / `socket_release_count` — whether and how many times
  `socket_.close()` ran;
* `queue_clear_count` — how many times `receive_queue_.clear()` ran;
* `worker_started` / `worker_detached` / `worker_joined` — the state of
  the `std::thread worker_` handle;
* `receives_issued` — how many `async_receive` operations were started;
* `sends_scheduled` — how many send coroutines were spawned;
* `scheduled_packets` — the packets handed to spawned send coroutines, in
  order (the coroutine capture that keeps each buffer alive);
* `options_set` — socket options successfully written, in order;
* `log` — the emitted log stream, in order. -/
structure ConnState where
  is_open : Bool
  receive_buffer_size : Nat
  queue : List Buffer
  peer : Option Endpoint
  socket_released : Bool
  socket_release_count : Nat
  queue_clear_count : Nat
  worker_started : Bool
  worker_detached : Bool
  worker_joined : Bool
  receives_issued : Nat
  sends_scheduled : Nat
  scheduled_packets : List Buffer
  options_set : List SockOpt
  log : List LogEntry
deriving DecidableEq, Repr

/-- Constructor (lines 42-49): binds the socket, logs the bound endpoint;
`is_open_` starts false, queue empty, no worker yet. -/
def mkConnection (receive_buffer_size : Nat) : ConnState :=
  { is_open := false
    receive_buffer_size := receive_buffer_size
    queue := []
    peer := none
    socket_released := false
    socket_release_count := 0
    queue_clear_count := 0
    worker_started := false
    worker_detached := false
    worker_joined := false
    receives_issued := 0
    sends_scheduled := 0
    scheduled_packets := []
    options_set := []
    log := [⟨LogLevel.info, LogTag.boundMsg⟩] }

/-- Method `close()` (lines 87-98): atomically test-and-set `is_open_` to false;
if it was already false, return at once.  Otherwise log the close, clear
the receive queue, and close the socket (a socket-close failure is caught
and logged; `socket_close_ok` carries that outcome). -/
def close (s : ConnState) (socket_close_ok : Bool := true) : ConnState :=
  if s.is_open = false then s
  else
    let s1 := { s with
      is_open := false
      log := s.log ++ [⟨LogLevel.info, LogTag.closeMsg⟩]
      queue := []
      queue_clear_count := s.queue_clear_count + 1
      socket_released := true
      socket_release_count := s.socket_release_count + 1 }
    if socket_close_ok then s1
    else { s1 with log := s1.log ++ [⟨LogLevel.error, LogTag.closeSocketErrorMsg⟩] }

/-- Method `open()` (lines 66-85): test-and-set `is_open_` to true; if already
open, no-op.  Otherwise spawn the receive loop, start the dispatch worker
thread and immediately `detach()` it (line 84). -/
def openConn (s : ConnState) : ConnState :=
  if s.is_open then s
  else { s with
    is_open := true
    worker_started := true
    worker_detached := true }

/-- Predicate `std::thread::joinable()` for the `worker_` handle: a thread object is
joinable iff a thread was started and neither `detach()` nor `join()` has
been called on it. -/
def joinable (s : ConnState) : Bool :=
  s.worker_started && !s.worker_detached && !s.worker_joined

/-- Destructor (lines 51-54): call `close()`, then join the worker thread
only if it is still joinable. -/
def destructor (s : ConnState) : ConnState :=
  let s1 := close s
  if joinable s1 then { s1 with worker_joined := true } else s1

/-- The underlying socket's `remote_endpoint()` query.  Modelled from the
spec: the boost socket is an external collaborator not in the repository;
querying the remote endpoint of a socket with no connected peer fails with
a not-connected error instead of returning a default endpoint. -/
def socketRemoteEndpoint (s : ConnState) : Except SocketError Endpoint :=
  match s.peer with
  | none => Except.error SocketError.notConnected
  | some e => Except.ok e

/-- Accessor `remote_endpoint()` (line 27): forwards the socket query
unguarded; any socket error propagates to the caller. -/
def remote_endpoint (s : ConnState) : Except SocketError Endpoint :=
  socketRemoteEndpoint s

/-- Method `connect(remote_endpoint)` (lines 56-64): try `socket_.connect`; on
failure catch the exception and log it.  Then — outside the try/catch —
log "Connected to ..." by querying `socket_.remote_endpoint()`; if that
query throws (the socket has no connected peer), the exception escapes
`connect()` to the caller, which the `Except.error` result models.
`connect_ok` carries the outcome of the underlying `socket_.connect`. -/
def connect (s : ConnState) (remote : Endpoint) (connect_ok : Bool) :
    Except SocketError ConnState :=
  let s1 :=
    if connect_ok then { s with peer := some remote }
    else { s with log := s.log ++ [⟨LogLevel.error, LogTag.connectErrorMsg⟩] }
  match socketRemoteEndpoint s1 with
  | Except.error e => Except.error e
  | Except.ok _ =>
      Except.ok { s1 with log := s1.log ++ [⟨LogLevel.info, LogTag.connectedMsg⟩] }

/-- Outcome of one `async_receive` completion. -/
inductive ReceiveResult
  | failure
  | success (data : Buffer)
deriving DecidableEq, Repr

/-- The buffer contents after `async_receive` completes into a fresh
zero-initialised vector of length `bufSize`: the first
`min data.length bufSize` bytes are the datagram's bytes (a UDP datagram
longer than the buffer is truncated), the rest keep their zero fill.  The
code pushes this whole vector; it never resizes it to the received
count. -/
def recvBuffer (bufSize : Nat) (data : Buffer) : Buffer :=
  data.take bufSize ++ List.replicate (bufSize - (data.take bufSize).length) 0

/-- One iteration of `receive_packet()` (lines 134-148): if not open,
return at once.  Otherwise issue one `async_receive` into a fresh buffer
of the configured size; on failure log the error and `close()`; on
success push the (untrimmed) buffer onto the receive queue. -/
def receive_packet (s : ConnState) (r : ReceiveResult) : ConnState :=
  if s.is_open = false then s
  else
    let s1 := { s with receives_issued := s.receives_issued + 1 }
    match r with
    | ReceiveResult.failure =>
        close { s1 with log := s1.log ++ [⟨LogLevel.error, LogTag.receiveErrorMsg⟩] }
    | ReceiveResult.success data =>
        { s1 with queue := s1.queue ++ [recvBuffer s1.receive_buffer_size data] }

/-- The receive loop spawned by `open()` (lines 70-74): while `is_open_`,
run one `receive_packet()` iteration; `rs` is the stream of socket
completion outcomes. -/
def receiveLoop (s : ConnState) : List ReceiveResult → ConnState
  | [] => s
  | r :: rs => if s.is_open then receiveLoop (receive_packet s r) rs else s

/-- Method `send_packet(packet)` (lines 100-117): if not open, return at once
without spawning anything.  Otherwise spawn a send coroutine; on
completion with failure, log the error and `close()`.  `send_ok` carries
the completion outcome of the underlying `async_send`. -/
def send_packet (s : ConnState) (packet : Buffer) (send_ok : Bool) : ConnState :=
  if s.is_open = false then s
  else
    let s1 := { s with
      sends_scheduled := s.sends_scheduled + 1
      scheduled_packets := s.scheduled_packets ++ [packet] }
    if send_ok then s1
    else close { s1 with log := s1.log ++ [⟨LogLevel.error, LogTag.sendErrorMsg⟩] }

/-- Method `join_multicast_group(address)` (lines 119-125): `set_option(reuse) ||
set_option(join)` — set reuse-address; on failure short-circuit (the
join-group option is not attempted) and log; otherwise set join-group; on
failure log.  Nothing else is touched.  `reuse_ok` / `join_ok` carry the
outcomes of the two `set_option` calls. -/
def join_multicast_group (s : ConnState) (reuse_ok join_ok : Bool) : ConnState :=
  if reuse_ok = false then
    { s with log := s.log ++ [⟨LogLevel.error, LogTag.multicastJoinErrorMsg⟩] }
  else if join_ok = false then
    { s with
      options_set := s.options_set ++ [SockOpt.reuseAddress]
      log := s.log ++ [⟨LogLevel.error, LogTag.multicastJoinErrorMsg⟩] }
  else
    { s with options_set := s.options_set ++ [SockOpt.reuseAddress, SockOpt.joinGroup] }

/-- Method `leave_multicast_group(address)` (lines 127-132): set the leave-group
option; on failure log.  -/
def leave_multicast_group (s : ConnState) (leave_ok : Bool) : ConnState :=
  if leave_ok = false then
    { s with log := s.log ++ [⟨LogLevel.error, LogTag.multicastLeaveErrorMsg⟩] }
  else
    { s with options_set := s.options_set ++ [SockOpt.leaveGroup] }

/-- Sequential composition of `n` calls to `close()` (each with a
successfully closing socket). -/
def closeTimes : Nat → ConnState → ConnState
  | 0, s => s
  | n + 1, s => closeTimes n (close s)

/-! ### Helper lemmas -/

/-- Calling `close` on an already-closed connection is the identity. -/
theorem close_of_not_open (s : ConnState) (ok : Bool) (h : s.is_open = false) :
    close s ok = s := by
  simp [close, h]

/-- After any `close` call the open flag is false. -/
theorem close_isOpen_false (s : ConnState) (ok : Bool) :
    (close s ok).is_open = false := by
  by_cases h : s.is_open = false
  · simp [close, h]
  · simp [close, h]
    split <;> rfl

/-- Explicit form of `close` on an open connection, socket close succeeding. -/
theorem close_spec_open (s : ConnState) (h : s.is_open = true) :
    close s = { s with
      is_open := false
      log := s.log ++ [⟨LogLevel.info, LogTag.closeMsg⟩]
      queue := []
      queue_clear_count := s.queue_clear_count + 1
      socket_released := true
      socket_release_count := s.socket_release_count + 1 } := by
  simp [close, h]

/-- Repeated close after the first is inert. -/
theorem closeTimes_of_not_open (n : Nat) (s : ConnState) (h : s.is_open = false) :
    closeTimes n s = s := by
  induction n with
  | zero => rfl
  | succ n ih => simp [closeTimes, close_of_not_open s true h, ih, h]

/-- A closed connection's receive loop performs no step. -/
theorem receiveLoop_of_not_open (s : ConnState) (rs : List ReceiveResult)
    (h : s.is_open = false) :
    receiveLoop s rs = s := by
  cases rs with
  | nil => rfl
  | cons r rs => simp [receiveLoop, h]

/-- Explicit form of a failing `receive_packet` step on an open connection. -/
theorem receive_packet_failure_spec (s : ConnState) (h : s.is_open = true) :
    receive_packet s ReceiveResult.failure
      = close { s with
          receives_issued := s.receives_issued + 1
          log := s.log ++ [⟨LogLevel.error, LogTag.receiveErrorMsg⟩] } := by
  simp [receive_packet, h]

/-! ### Claim theorems -/

/-- Claim C1, counterexample: on a connection opened with a configured
receive-buffer size of 4, a successfully received 2-byte datagram `[1, 2]`
is pushed onto the handoff queue as the buffer `[1, 2, 0, 0]` of length 4,
not trimmed to the received length 2: the code discards the received byte
count and pushes the whole allocated vector. -/
theorem receive_push_not_trimmed_cex :
    (receive_packet (openConn (mkConnection 4)) (ReceiveResult.success [1, 2])).queue
      = [[1, 2, 0, 0]] ∧
    List.length [1, 2, 0, 0] = 4 ∧ ¬ List.length ([1, 2] : Buffer) = 4 := by
  refine ⟨by decide, by decide, by decide⟩

/-- Claim C1, amended: for every datagram received successfully while the
connection is open, the byte buffer pushed onto the handoff queue has
length equal to the allocated receive-buffer size — the actual received
byte count is discarded, the buffer is not trimmed, and bytes beyond the
datagram keep their zero fill. -/
theorem receive_push_has_allocated_size (s : ConnState) (data : Buffer)
    (hopen : s.is_open = true) :
    (receive_packet s (ReceiveResult.success data)).queue
      = s.queue ++ [recvBuffer s.receive_buffer_size data] ∧
    (recvBuffer s.receive_buffer_size data).length = s.receive_buffer_size := by
  constructor
  · simp [receive_packet, hopen]
  · simp only [recvBuffer, List.length_append, List.length_take,
      List.length_replicate]
    omega

/-- Witness for C1's amended theorem at a concrete state and datagram. -/
theorem receive_push_has_allocated_size_witness :
    (openConn (mkConnection 4)).is_open = true ∧
    ((receive_packet (openConn (mkConnection 4)) (ReceiveResult.success [1, 2, 3])).queue
        = (openConn (mkConnection 4)).queue
          ++ [recvBuffer (openConn (mkConnection 4)).receive_buffer_size [1, 2, 3]] ∧
      (recvBuffer (openConn (mkConnection 4)).receive_buffer_size [1, 2, 3]).length
        = (openConn (mkConnection 4)).receive_buffer_size) :=
  ⟨by decide, receive_push_has_allocated_size (openConn (mkConnection 4)) [1, 2, 3] (by decide)⟩

/-- Claim C2, code evaluation at the failing input: after `open()` the
worker thread handle has been detached (line 84), so at destruction time
`worker_.joinable()` is false and the destructor's `worker_.join()` never
runs — the destructor returns without waiting for the dispatch worker to
exit, contradicting the claim that destruction blocks until the worker
has fully exited. -/
theorem destructor_after_open_skips_join :
    (openConn (mkConnection 8)).worker_detached = true ∧
    joinable (close (openConn (mkConnection 8))) = false ∧
    destructor (openConn (mkConnection 8)) = close (openConn (mkConnection 8)) ∧
    (destructor (openConn (mkConnection 8))).worker_joined = false := by
  refine ⟨by decide, by decide, by decide, by decide⟩

/-- Claim C3, code evaluation at the failing input: calling `connect` on a
freshly constructed connection (no peer set) with the underlying socket
connect failing raises the not-connected error to the caller — the
unconditional post-catch info log queries `socket_.remote_endpoint()`,
which throws on an unconnected socket, so the failure is not confined to
a log entry. -/
theorem connect_failure_escapes_to_caller :
    connect (mkConnection 8) ⟨1, 9000⟩ false
      = Except.error SocketError.notConnected := by
  rfl

/-- Claim C4: `close()` is idempotent — on an open connection, any
sequence of `N ≥ 1` close calls performs exactly one teardown (the open
flag flips once, the queue is cleared exactly once, the socket is
released exactly once), every call after the first is a no-op, and
`is_open()` is false afterward. -/
theorem close_idempotent_one_teardown (s : ConnState) (n : Nat)
    (hopen : s.is_open = true) (hn : 1 ≤ n) :
    closeTimes n s = close s ∧
    (closeTimes n s).is_open = false ∧
    (closeTimes n s).socket_release_count = s.socket_release_count + 1 ∧
    (closeTimes n s).queue_clear_count = s.queue_clear_count + 1 ∧
    (closeTimes n s).queue = [] := by
  obtain ⟨m, rfl⟩ : ∃ m, n = m + 1 := ⟨n - 1, by omega⟩
  have h1 : closeTimes (m + 1) s = close s := by
    simp only [closeTimes]
    exact closeTimes_of_not_open m (close s) (close_isOpen_false s true)
  rw [h1, close_spec_open s hopen]
  exact ⟨rfl, rfl, rfl, rfl, rfl⟩

/-- Witness for C4 at a concrete open connection and `N = 3`. -/
theorem close_idempotent_one_teardown_witness :
    (openConn (mkConnection 8)).is_open = true ∧ 1 ≤ 3 ∧
    (closeTimes 3 (openConn (mkConnection 8)) = close (openConn (mkConnection 8)) ∧
      (closeTimes 3 (openConn (mkConnection 8))).is_open = false ∧
      (closeTimes 3 (openConn (mkConnection 8))).socket_release_count
        = (openConn (mkConnection 8)).socket_release_count + 1 ∧
      (closeTimes 3 (openConn (mkConnection 8))).queue_clear_count
        = (openConn (mkConnection 8)).queue_clear_count + 1 ∧
      (closeTimes 3 (openConn (mkConnection 8))).queue = []) :=
  ⟨by decide, by decide,
    close_idempotent_one_teardown (openConn (mkConnection 8)) 3 (by decide) (by decide)⟩

/-- Claim C5: when a receive completes with failure on an open connection,
`close()` is invoked (`is_open` becomes false and exactly one teardown
runs), the error is logged, no further receive is issued regardless of
what the socket would have delivered next, and no further datagram is
enqueued (the queue is left empty by the teardown). -/
theorem receive_failure_closes_and_stops (s : ConnState) (rs : List ReceiveResult)
    (hopen : s.is_open = true) :
    (receiveLoop s (ReceiveResult.failure :: rs)).is_open = false ∧
    (receiveLoop s (ReceiveResult.failure :: rs)).socket_release_count
      = s.socket_release_count + 1 ∧
    ⟨LogLevel.error, LogTag.receiveErrorMsg⟩
      ∈ (receiveLoop s (ReceiveResult.failure :: rs)).log ∧
    (receiveLoop s (ReceiveResult.failure :: rs)).receives_issued
      = s.receives_issued + 1 ∧
    (receiveLoop s (ReceiveResult.failure :: rs)).queue = [] := by
  have hspec := receive_packet_failure_spec s hopen
  have hro : (receive_packet s ReceiveResult.failure).is_open = false := by
    rw [hspec]; exact close_isOpen_false _ true
  have hloop : receiveLoop s (ReceiveResult.failure :: rs)
      = receive_packet s ReceiveResult.failure := by
    simp only [receiveLoop, hopen, if_true]
    exact receiveLoop_of_not_open _ rs hro
  rw [hloop, hspec, close_spec_open _ (by simp [hopen])]
  refine ⟨rfl, rfl, ?_, rfl, rfl⟩
  simp [List.mem_append]

/-- Witness for C5 at a concrete open connection, with one outcome still
pending behind the failure. -/
theorem receive_failure_closes_and_stops_witness :
    (openConn (mkConnection 2)).is_open = true ∧
    ((receiveLoop (openConn (mkConnection 2))
        (ReceiveResult.failure :: [ReceiveResult.success [7]])).is_open = false ∧
      (receiveLoop (openConn (mkConnection 2))
          (ReceiveResult.failure :: [ReceiveResult.success [7]])).socket_release_count
        = (openConn (mkConnection 2)).socket_release_count + 1 ∧
      ⟨LogLevel.error, LogTag.receiveErrorMsg⟩
        ∈ (receiveLoop (openConn (mkConnection 2))
            (ReceiveResult.failure :: [ReceiveResult.success [7]])).log ∧
      (receiveLoop (openConn (mkConnection 2))
          (ReceiveResult.failure :: [ReceiveResult.success [7]])).receives_issued
        = (openConn (mkConnection 2)).receives_issued + 1 ∧
      (receiveLoop (openConn (mkConnection 2))
          (ReceiveResult.failure :: [ReceiveResult.success [7]])).queue = []) :=
  ⟨by decide,
    receive_failure_closes_and_stops (openConn (mkConnection 2))
      [ReceiveResult.success [7]] (by decide)⟩

/-- Claim C6: when an asynchronous send spawned on an open connection
completes with failure, the failure is logged and `close()` runs — the
open flag drops, and the socket is released — so a single failed send
tears down the whole connection. -/
theorem send_failure_closes (s : ConnState) (p : Buffer) (hopen : s.is_open = true) :
    (send_packet s p false).is_open = false ∧
    ⟨LogLevel.error, LogTag.sendErrorMsg⟩ ∈ (send_packet s p false).log ∧
    (send_packet s p false).socket_release_count = s.socket_release_count + 1 ∧
    (send_packet s p false).socket_released = true := by
  have hspec : send_packet s p false
      = close { s with
          sends_scheduled := s.sends_scheduled + 1
          scheduled_packets := s.scheduled_packets ++ [p]
          log := s.log ++ [⟨LogLevel.error, LogTag.sendErrorMsg⟩] } := by
    simp [send_packet, hopen]
  rw [hspec, close_spec_open _ (by simp [hopen])]
  refine ⟨rfl, ?_, rfl, rfl⟩
  simp [List.mem_append]

/-- Witness for C6 at a concrete open connection. -/
theorem send_failure_closes_witness :
    (openConn (mkConnection 8)).is_open = true ∧
    ((send_packet (openConn (mkConnection 8)) [1, 2] false).is_open = false ∧
      ⟨LogLevel.error, LogTag.sendErrorMsg⟩
        ∈ (send_packet (openConn (mkConnection 8)) [1, 2] false).log ∧
      (send_packet (openConn (mkConnection 8)) [1, 2] false).socket_release_count
        = (openConn (mkConnection 8)).socket_release_count + 1 ∧
      (send_packet (openConn (mkConnection 8)) [1, 2] false).socket_released = true) :=
  ⟨by decide, send_failure_closes (openConn (mkConnection 8)) [1, 2] (by decide)⟩

/-- Claim C7: calling `send_packet` while the connection is not open
(before `open()` or after `close()`) is a safe no-op — the state is
unchanged, so no send coroutine is spawned, the packet buffer is not
retained, and no error is produced. -/
theorem send_while_closed_noop (s : ConnState) (p : Buffer) (send_ok : Bool)
    (hclosed : s.is_open = false) :
    send_packet s p send_ok = s := by
  simp [send_packet, hclosed]

/-- Witness for C7 on a freshly constructed (never opened) connection. -/
theorem send_while_closed_noop_witness :
    (mkConnection 8).is_open = false ∧
    send_packet (mkConnection 8) [1, 2, 3] true = mkConnection 8 :=
  ⟨by decide, send_while_closed_noop (mkConnection 8) [1, 2, 3] true (by decide)⟩

/-- Claim C8: when either socket option of `join_multicast_group` fails,
the failure is non-fatal — `is_open` is unchanged, no part of the close
teardown runs (queue, clear counter, socket release all unchanged), the
connection's receive/send-relevant state (peer, buffer size) is
untouched, and the error is logged. -/
theorem join_multicast_failure_nonfatal (s : ConnState) (reuse_ok join_ok : Bool)
    (hfail : reuse_ok = false ∨ join_ok = false) :
    (join_multicast_group s reuse_ok join_ok).is_open = s.is_open ∧
    (join_multicast_group s reuse_ok join_ok).queue = s.queue ∧
    (join_multicast_group s reuse_ok join_ok).queue_clear_count = s.queue_clear_count ∧
    (join_multicast_group s reuse_ok join_ok).socket_released = s.socket_released ∧
    (join_multicast_group s reuse_ok join_ok).socket_release_count
      = s.socket_release_count ∧
    (join_multicast_group s reuse_ok join_ok).peer = s.peer ∧
    (join_multicast_group s reuse_ok join_ok).receive_buffer_size
      = s.receive_buffer_size ∧
    ⟨LogLevel.error, LogTag.multicastJoinErrorMsg⟩
      ∈ (join_multicast_group s reuse_ok join_ok).log := by
  rcases hfail with h | h
  · subst h
    simp [join_multicast_group]
  · subst h
    cases reuse_ok <;> simp [join_multicast_group]

/-- Witness for C8: reuse-address succeeds, join-group fails, on an open
connection. -/
theorem join_multicast_failure_nonfatal_witness :
    (true = false ∨ false = false) ∧
    ((join_multicast_group (openConn (mkConnection 8)) true false).is_open
        = (openConn (mkConnection 8)).is_open ∧
      (join_multicast_group (openConn (mkConnection 8)) true false).queue
        = (openConn (mkConnection 8)).queue ∧
      (join_multicast_group (openConn (mkConnection 8)) true false).queue_clear_count
        = (openConn (mkConnection 8)).queue_clear_count ∧
      (join_multicast_group (openConn (mkConnection 8)) true false).socket_released
        = (openConn (mkConnection 8)).socket_released ∧
      (join_multicast_group (openConn (mkConnection 8)) true false).socket_release_count
        = (openConn (mkConnection 8)).socket_release_count ∧
      (join_multicast_group (openConn (mkConnection 8)) true false).peer
        = (openConn (mkConnection 8)).peer ∧
      (join_multicast_group (openConn (mkConnection 8)) true false).receive_buffer_size
        = (openConn (mkConnection 8)).receive_buffer_size ∧
      ⟨LogLevel.error, LogTag.multicastJoinErrorMsg⟩
        ∈ (join_multicast_group (openConn (mkConnection 8)) true false).log) :=
  ⟨Or.inr rfl,
    join_multicast_failure_nonfatal (openConn (mkConnection 8)) true false (Or.inr rfl)⟩

/-- Claim C9: querying `remote_endpoint()` on a connection whose socket
has no connected peer (no successful `connect` has occurred) raises the
not-connected error to the caller instead of returning a default or
sentinel endpoint. -/
theorem remote_endpoint_unconnected_errors (s : ConnState) (h : s.peer = none) :
    remote_endpoint s = Except.error SocketError.notConnected := by
  simp [remote_endpoint, socketRemoteEndpoint, h]

/-- Witness for C9 on a freshly constructed connection. -/
theorem remote_endpoint_unconnected_errors_witness :
    (mkConnection 8).peer = none ∧
    remote_endpoint (mkConnection 8) = Except.error SocketError.notConnected :=
  ⟨rfl, remote_endpoint_unconnected_errors (mkConnection 8) rfl⟩

/-- Claim C10: calling `close()` on a connection that was never opened is
a complete no-op — the state is unchanged, so the open flag stays false,
the socket is not released, the queue is not cleared, and no log entry is
emitted. -/
theorem close_never_opened_noop (s : ConnState) (socket_close_ok : Bool)
    (h : s.is_open = false) :
    close s socket_close_ok = s := by
  simp [close, h]

/-- Witness for C10 on a freshly constructed connection. -/
theorem close_never_opened_noop_witness :
    (mkConnection 8).is_open = false ∧
    close (mkConnection 8) true = mkConnection 8 :=
  ⟨rfl, close_never_opened_noop (mkConnection 8) true rfl⟩

end SanhokNet
